import Mathlib

/-!
Verification development for the `pyarc2` binding layer (`src/lib.rs`).

The repository is a thin pyo3 wrapper around the external `libarc2`
native library.  We give a shallow embedding of the wrapper:

* the native enum families (`BiasOrder`, `ReadAt`, `ReadAfter`,
  `ControlMode`, `DataMode`, `ReadType`, `WaitFor`, `AuxDACFn`) are
  modelled with exactly the variants the wrapper source references;
* each `Py*` mirror type is a structure wrapping the native value in
  its `_inner` field, exactly as in the source;
* each forwarding method of `PyInstrument` is a function that takes
  the (single) native call's result as an explicit argument and
  returns the host-runtime outcome paired with the list of native
  calls it issued (its trace).  A Rust `.unwrap()` on an `Err` is a
  panic, modelled by the `PyOutcome.panicked` constructor, which is
  distinct from raising the `ArC2Error` Python exception.
-/

namespace Pyarc2

/-- The wrapper never computes on `f32` values, it only moves them
across the boundary; we model them as `Float`. -/
abbrev f32 := Float

/-- Low-level error type of the native library (`libarc2::ArC2Error`).
The wrapper treats it as fully opaque, so we model it as an abstract
token carrying a numeric identity. -/
structure LLArC2Error where
  code : Nat
deriving DecidableEq

/-- Native `libarc2::BiasOrder`; the wrapper references the variants
`Rows` and `Columns`. -/
inductive BiasOrder
  | Rows
  | Columns
deriving DecidableEq

/-- Native `libarc2::ReadAt` with variants `Bias`, `Arb(f32)`, `Never`. -/
inductive ReadAt
  | Bias
  | Arb (voltage : f32)
  | Never

/-- Native `libarc2::ReadAfter` with variants `Pulse`, `Ramp`, `Block`, `Never`. -/
inductive ReadAfter
  | Pulse
  | Ramp
  | Block
  | Never
deriving DecidableEq

/-- Native `libarc2::ControlMode` with variants `Header` and `Internal`. -/
inductive ControlMode
  | Header
  | Internal
deriving DecidableEq

/-- Native `libarc2::DataMode` with variants `Words`, `Bits`, `All`. -/
inductive DataMode
  | Words
  | Bits
  | All
deriving DecidableEq

/-- Native `libarc2::ReadType` with variants `Current` and `Voltage`. -/
inductive ReadType
  | Current
  | Voltage
deriving DecidableEq

/-- Native `libarc2::WaitFor`: either a duration (held in nanoseconds,
as `std::time::Duration` is exact at nanosecond granularity in the
ranges the wrapper constructs) or an iteration count. -/
inductive WaitFor
  | Time (nanos : Nat)
  | Iterations (iters : Nat)
deriving DecidableEq

/-- Native `libarc2::registers::AuxDACFn` with the eight variants the
wrapper exposes. -/
inductive AuxDACFn
  | SELL
  | SELH
  | ARB1
  | ARB2
  | ARB3
  | ARB4
  | CREF
  | CSET
deriving DecidableEq

/-- Native `libarc2::registers::IOMask`, built by the wrapper only via
`IOMask::from_vals`. -/
structure IOMask where
  vals : List Nat
deriving DecidableEq

/-- Mirrors `IOMask::from_vals(&[mask])`. -/
def IOMask.from_vals (vals : List Nat) : IOMask :=
  ⟨vals⟩

/-- Python-level errors the wrapper can produce: the custom `ArC2Error`
exception wrapping a native error, `ValueError`, or a generic
`PyException`. -/
inductive PyErr
  | ArC2Error (err : LLArC2Error)
  | ValueError (msg : String)
  | PyException (msg : String)
deriving DecidableEq

/-- Outcome of a wrapper call as observed by the host runtime: a
success value, a raised Python exception, or a Rust panic (from
`.unwrap()` on an `Err`). -/
inductive PyOutcome (α : Type)
  | ok (val : α)
  | raise (err : PyErr)
  | panicked (msg : String)

/-- Panic message produced by `Result::unwrap` on an `Err`. -/
def unwrapMsg : String :=
  "called Result::unwrap() on an Err value"

/-- Rust `.unwrap()` on a native `Result`: success passes through,
error panics (it is never converted to a Python exception). -/
def unwrap {α : Type} : Except LLArC2Error α → PyOutcome α
  | .ok v => .ok v
  | .error _ => .panicked unwrapMsg

/-! Mirror (`Py*`) wrapper types, each a struct holding the native
value in `_inner`, with the class attributes and conversions the
source defines. -/

/-- Mirrors `struct PyBiasOrder { _inner: BiasOrder }`. -/
structure PyBiasOrder where
  _inner : BiasOrder
deriving DecidableEq

/-- Mirrors the classattr `PyBiasOrder::Rows()`. -/
def PyBiasOrder.Rows : PyBiasOrder :=
  ⟨BiasOrder.Rows⟩

/-- Mirrors the classattr `PyBiasOrder::Cols()`. -/
def PyBiasOrder.Cols : PyBiasOrder :=
  ⟨BiasOrder.Columns⟩

/-- Mirrors `impl From<BiasOrder> for PyBiasOrder`. -/
def PyBiasOrder.ofNative (order : BiasOrder) : PyBiasOrder :=
  ⟨order⟩

/-- Mirrors `impl From<PyBiasOrder> for BiasOrder`. -/
def PyBiasOrder.intoNative (order : PyBiasOrder) : BiasOrder :=
  order._inner

/-- Mirrors `struct PyReadAt { _inner: ReadAt }`. -/
structure PyReadAt where
  _inner : ReadAt

/-- Mirrors the classattr `PyReadAt::Bias()`. -/
def PyReadAt.Bias : PyReadAt :=
  ⟨ReadAt.Bias⟩

/-- Mirrors the staticmethod `PyReadAt::Arb(voltage)`. -/
def PyReadAt.Arb (voltage : f32) : PyReadAt :=
  ⟨ReadAt.Arb voltage⟩

/-- Mirrors the classattr `PyReadAt::Never()`. -/
def PyReadAt.Never : PyReadAt :=
  ⟨ReadAt.Never⟩

/-- Mirrors `PyReadAt::voltage`: `Ok(v)` exactly for `Arb(v)`,
otherwise a generic Python exception. -/
def PyReadAt.voltage (self : PyReadAt) : Except PyErr f32 :=
  match self._inner with
  | .Arb v => .ok v
  | _ => .error (PyErr.PyException "No voltage associated")

/-- Mirrors `impl From<ReadAt> for PyReadAt`. -/
def PyReadAt.ofNative (readat : ReadAt) : PyReadAt :=
  ⟨readat⟩

/-- Mirrors `impl From<PyReadAt> for ReadAt`. -/
def PyReadAt.intoNative (readat : PyReadAt) : ReadAt :=
  readat._inner

/-- Mirrors `struct PyReadAfter { _inner: ReadAfter }`. -/
structure PyReadAfter where
  _inner : ReadAfter
deriving DecidableEq

/-- Mirrors the classattr `PyReadAfter::Pulse()`. -/
def PyReadAfter.Pulse : PyReadAfter :=
  ⟨ReadAfter.Pulse⟩

/-- Mirrors the classattr `PyReadAfter::Ramp()`. -/
def PyReadAfter.Ramp : PyReadAfter :=
  ⟨ReadAfter.Ramp⟩

/-- Mirrors the classattr `PyReadAfter::Block()`. -/
def PyReadAfter.Block : PyReadAfter :=
  ⟨ReadAfter.Block⟩

/-- Mirrors the classattr `PyReadAfter::Never()`. -/
def PyReadAfter.Never : PyReadAfter :=
  ⟨ReadAfter.Never⟩

/-- Mirrors the staticmethod `PyReadAfter::from_str`. -/
def PyReadAfter.from_str (r : String) : Except PyErr PyReadAfter :=
  if r = "pulse" then .ok PyReadAfter.Pulse
  else if r = "ramp" then .ok PyReadAfter.Ramp
  else if r = "block" then .ok PyReadAfter.Block
  else if r = "never" then .ok PyReadAfter.Never
  else .error (PyErr.ValueError "Unknown ReadAfter")

/-- Mirrors `PyReadAfter::__str__`. -/
def PyReadAfter.__str__ (self : PyReadAfter) : String :=
  match self._inner with
  | .Pulse => "pulse"
  | .Ramp => "ramp"
  | .Block => "block"
  | .Never => "never"

/-- Mirrors `impl From<ReadAfter> for PyReadAfter`. -/
def PyReadAfter.ofNative (readafter : ReadAfter) : PyReadAfter :=
  ⟨readafter⟩

/-- Mirrors `impl From<PyReadAfter> for ReadAfter`. -/
def PyReadAfter.intoNative (readafter : PyReadAfter) : ReadAfter :=
  readafter._inner

/-- Mirrors `struct PyControlMode { _inner: ControlMode }`. -/
structure PyControlMode where
  _inner : ControlMode
deriving DecidableEq

/-- Mirrors the classattr `PyControlMode::Header()`. -/
def PyControlMode.Header : PyControlMode :=
  ⟨ControlMode.Header⟩

/-- Mirrors the classattr `PyControlMode::Internal()`. -/
def PyControlMode.Internal : PyControlMode :=
  ⟨ControlMode.Internal⟩

/-- Mirrors `impl From<ControlMode> for PyControlMode`. -/
def PyControlMode.ofNative (order : ControlMode) : PyControlMode :=
  ⟨order⟩

/-- Mirrors `impl From<PyControlMode> for ControlMode`. -/
def PyControlMode.intoNative (order : PyControlMode) : ControlMode :=
  order._inner

/-- Mirrors `struct PyDataMode { _inner: DataMode }`. -/
structure PyDataMode where
  _inner : DataMode
deriving DecidableEq

/-- Mirrors the classattr `PyDataMode::Words()`. -/
def PyDataMode.Words : PyDataMode :=
  ⟨DataMode.Words⟩

/-- Mirrors the classattr `PyDataMode::Bits()`. -/
def PyDataMode.Bits : PyDataMode :=
  ⟨DataMode.Bits⟩

/-- Mirrors the classattr `PyDataMode::All()`. -/
def PyDataMode.All : PyDataMode :=
  ⟨DataMode.All⟩

/-- Mirrors `impl From<DataMode> for PyDataMode`. -/
def PyDataMode.ofNative (mode : DataMode) : PyDataMode :=
  ⟨mode⟩

/-- Mirrors `impl From<PyDataMode> for DataMode`. -/
def PyDataMode.intoNative (mode : PyDataMode) : DataMode :=
  mode._inner

/-- Mirrors `struct PyReadType { _inner: ReadType }`. -/
structure PyReadType where
  _inner : ReadType
deriving DecidableEq

/-- Mirrors the classattr `PyReadType::Current()`. -/
def PyReadType.Current : PyReadType :=
  ⟨ReadType.Current⟩

/-- Mirrors the classattr `PyReadType::Voltage()`. -/
def PyReadType.Voltage : PyReadType :=
  ⟨ReadType.Voltage⟩

/-- Mirrors `impl From<ReadType> for PyReadType`. -/
def PyReadType.ofNative (rtype : ReadType) : PyReadType :=
  ⟨rtype⟩

/-- Mirrors `impl From<PyReadType> for ReadType`. -/
def PyReadType.intoNative (rtype : PyReadType) : ReadType :=
  rtype._inner

/-- Mirrors `struct PyWaitFor { _inner: WaitFor }`. -/
structure PyWaitFor where
  _inner : WaitFor
deriving DecidableEq

/-- Mirrors the staticmethod `PyWaitFor::Nanos`. -/
def PyWaitFor.Nanos (nanos : Nat) : PyWaitFor :=
  ⟨WaitFor.Time nanos⟩

/-- Mirrors the staticmethod `PyWaitFor::Millis`
(`Duration::from_millis`, i.e. `millis * 10^6` nanoseconds). -/
def PyWaitFor.Millis (millis : Nat) : PyWaitFor :=
  ⟨WaitFor.Time (millis * 1000000)⟩

/-- Mirrors the staticmethod `PyWaitFor::Iterations`. -/
def PyWaitFor.Iterations (iters : Nat) : PyWaitFor :=
  ⟨WaitFor.Iterations iters⟩

/-- Mirrors `impl From<WaitFor> for PyWaitFor`. -/
def PyWaitFor.ofNative (waitfor : WaitFor) : PyWaitFor :=
  ⟨waitfor⟩

/-- Mirrors `impl From<PyWaitFor> for WaitFor`. -/
def PyWaitFor.intoNative (waitfor : PyWaitFor) : WaitFor :=
  waitfor._inner

/-- Mirrors `struct PyAuxDACFn { _inner: AuxDACFn }`. -/
structure PyAuxDACFn where
  _inner : AuxDACFn
deriving DecidableEq

/-- Mirrors the classattr `PyAuxDACFn::SELL()`. -/
def PyAuxDACFn.SELL : PyAuxDACFn :=
  ⟨AuxDACFn.SELL⟩

/-- Mirrors the classattr `PyAuxDACFn::SELH()`. -/
def PyAuxDACFn.SELH : PyAuxDACFn :=
  ⟨AuxDACFn.SELH⟩

/-- Mirrors the classattr `PyAuxDACFn::ARB1()`. -/
def PyAuxDACFn.ARB1 : PyAuxDACFn :=
  ⟨AuxDACFn.ARB1⟩

/-- Mirrors the classattr `PyAuxDACFn::ARB2()`. -/
def PyAuxDACFn.ARB2 : PyAuxDACFn :=
  ⟨AuxDACFn.ARB2⟩

/-- Mirrors the classattr `PyAuxDACFn::ARB3()`. -/
def PyAuxDACFn.ARB3 : PyAuxDACFn :=
  ⟨AuxDACFn.ARB3⟩

/-- Mirrors the classattr `PyAuxDACFn::ARB4()`. -/
def PyAuxDACFn.ARB4 : PyAuxDACFn :=
  ⟨AuxDACFn.ARB4⟩

/-- Mirrors the classattr `PyAuxDACFn::CREF()`. -/
def PyAuxDACFn.CREF : PyAuxDACFn :=
  ⟨AuxDACFn.CREF⟩

/-- Mirrors the classattr `PyAuxDACFn::CSET()`. -/
def PyAuxDACFn.CSET : PyAuxDACFn :=
  ⟨AuxDACFn.CSET⟩

/-- Mirrors `impl From<AuxDACFn> for PyAuxDACFn`. -/
def PyAuxDACFn.ofNative (func : AuxDACFn) : PyAuxDACFn :=
  ⟨func⟩

/-- Mirrors `impl From<PyAuxDACFn> for AuxDACFn` (also the `&PyAuxDACFn` impl). -/
def PyAuxDACFn.intoNative (func : PyAuxDACFn) : AuxDACFn :=
  func._inner

/-! The instrument handle and its forwarding methods. -/

/-- Native `libarc2::Instrument`: an opaque handle whose state lives
entirely inside the native library; the wrapper only stores and
forwards it. -/
structure Instrument where
  handle : Nat
deriving DecidableEq

/-- Mirrors `struct PyInstrument { _instrument: Instrument }` — the
wrapper's only field. -/
structure PyInstrument where
  _instrument : Instrument
deriving DecidableEq

/-- One invocation of a native `libarc2` method, with the already
converted arguments the wrapper passes.  Each forwarding method's
trace is a list of these. -/
inductive NativeCall
  | open_with_fw (id : Int) (fw : String) (reset : Bool)
  | add_delay (nanos : Nat)
  | ground_all
  | ground_all_fast
  | connect_to_gnd (chans : List Nat)
  | float_all
  | open_channels (channels : List Nat)
  | config_channels (input : List (Nat × f32)) (base : Option f32)
  | config_aux_channels (voltages : List (AuxDACFn × f32))
  | config_selectors (selectors : List Nat)
  | read_one (low : Nat) (high : Nat) (vread : f32)
  | read_slice (chan : Nat) (vread : f32)
  | read_slice_masked (chan : Nat) (mask : List Nat) (vread : f32)
  | read_all (vread : f32) (order : BiasOrder)
  | read_slice_open (highs : List Nat) (ground : Bool)
  | pulse_one (low : Nat) (high : Nat) (voltage : f32) (nanos : Nat)
  | pulse_slice (chan : Nat) (voltage : f32) (nanos : Nat)
  | pulse_slice_masked (chan : Nat) (mask : List Nat) (voltage : f32) (nanos : Nat)
  | pulse_slice_fast_open (chans : List (Nat × f32 × f32)) (cl_nanos : List (Option Nat))
      (preset : Bool)
  | pulse_all (voltage : f32) (nanos : Nat) (order : BiasOrder)
  | pulseread_one (low : Nat) (high : Nat) (vpulse : f32) (nanos : Nat) (vread : f32)
  | pulseread_slice (chan : Nat) (vpulse : f32) (nanos : Nat) (vread : f32)
  | pulseread_slice_masked (chan : Nat) (mask : List Nat) (vpulse : f32) (nanos : Nat)
      (vread : f32)
  | pulseread_all (vpulse : f32) (nanos : Nat) (vread : f32) (order : BiasOrder)
  | vread_channels (chans : List Nat) (averaging : Bool)
  | execute
  | busy
  | wait
  | set_control_mode (mode : ControlMode)
  | set_logic (mask : IOMask)
  | currents_from_address (addr : Nat) (chans : List Nat)
  | word_currents_from_address (addr : Nat)
  | bit_currents_from_address (addr : Nat)
  | generate_ramp (low : Nat) (high : Nat) (vstart : f32) (vstep : f32) (vstop : f32)
      (pw_nanos : Nat) (inter_nanos : Nat) (num_pulses : Nat) (read_at : ReadAt)
      (read_after : ReadAfter)
  | generate_read_train (lows : List Nat) (highs : List Nat) (vread : f32) (nreads : Nat)
      (inter_nanos : Nat) (ground : Bool)
  | generate_vread_train (chans : List Nat) (averaging : Bool) (npulses : Nat)
      (inter_nanos : Nat)
  | read_train (low : Nat) (high : Nat) (vread : f32) (interpulse : Nat)
      (preload : Option f32) (condition : WaitFor)
  | pick_one (mode : DataMode) (rtype : ReadType)

/-- True exactly on the `execute` native call. -/
def NativeCall.isExecute : NativeCall → Bool
  | .execute => true
  | _ => false

/-- The `ndarray` two-dimensional array: flat data in row-major order
plus its shape, which is how `Array2` stores elements with default
(standard, C-order) strides. -/
structure Array2 (α : Type) where
  nrows : Nat
  ncols : Nat
  data : List α

/-- Row-major element access into an `Array2`. -/
def Array2.get? {α : Type} (a : Array2 α) (i j : Nat) : Option α :=
  a.data.get? (i * a.ncols + j)

/-- Shape mismatch error of `ndarray::Array::from_shape_vec`. -/
structure ShapeError where
deriving DecidableEq

/-- Mirrors `Array::from_shape_vec((nrows, ncols), data)`: keeps the
flat buffer as the row-major contents, after checking that the length
matches the shape. -/
def from_shape_vec {α : Type} (nrows ncols : Nat) (data : List α) :
    Except ShapeError (Array2 α) :=
  if nrows * ncols = data.length then .ok ⟨nrows, ncols, data⟩ else .error ⟨⟩

/-! The forwarding methods of `PyInstrument`.  Each method takes the
result of the single native call it would issue as an explicit
`Except` argument (the native library is external), and returns the
host-visible outcome paired with the trace of native calls issued. -/

/-- Mirrors `PyInstrument::new`: `Instrument::open_with_fw(id, fw, true)`,
error converted to `ArC2Error`. -/
def PyInstrument.new (id : Int) (fw : String)
    (native : Except LLArC2Error Instrument) :
    PyOutcome PyInstrument × List NativeCall :=
  (match native with
   | .ok instr => .ok ⟨instr⟩
   | .error err => .raise (PyErr.ArC2Error err),
   [NativeCall.open_with_fw id fw true])

/-- Mirrors `PyInstrument::delay`. -/
def PyInstrument.delay (slf : PyInstrument) (nanos : Nat)
    (native : Except LLArC2Error Unit) :
    PyOutcome PyInstrument × List NativeCall :=
  (match native with
   | .ok _ => .ok slf
   | .error err => .raise (PyErr.ArC2Error err),
   [NativeCall.add_delay nanos])

/-- Mirrors `PyInstrument::ground_all`. -/
def PyInstrument.ground_all (slf : PyInstrument)
    (native : Except LLArC2Error Unit) :
    PyOutcome PyInstrument × List NativeCall :=
  (match native with
   | .ok _ => .ok slf
   | .error err => .raise (PyErr.ArC2Error err),
   [NativeCall.ground_all])

/-- Mirrors `PyInstrument::ground_all_fast`. -/
def PyInstrument.ground_all_fast (slf : PyInstrument)
    (native : Except LLArC2Error Unit) :
    PyOutcome PyInstrument × List NativeCall :=
  (match native with
   | .ok _ => .ok slf
   | .error err => .raise (PyErr.ArC2Error err),
   [NativeCall.ground_all_fast])

/-- Mirrors `PyInstrument::connect_to_gnd`; the numpy array argument
is its contiguous slice of channel numbers. -/
def PyInstrument.connect_to_gnd (slf : PyInstrument) (chans : List Nat)
    (native : Except LLArC2Error Unit) :
    PyOutcome PyInstrument × List NativeCall :=
  (match native with
   | .ok _ => .ok slf
   | .error err => .raise (PyErr.ArC2Error err),
   [NativeCall.connect_to_gnd chans])

/-- Mirrors `PyInstrument::float_all`. -/
def PyInstrument.float_all (slf : PyInstrument)
    (native : Except LLArC2Error Unit) :
    PyOutcome PyInstrument × List NativeCall :=
  (match native with
   | .ok _ => .ok slf
   | .error err => .raise (PyErr.ArC2Error err),
   [NativeCall.float_all])

/-- Mirrors `PyInstrument::open_channels`. -/
def PyInstrument.open_channels (slf : PyInstrument) (channels : List Nat)
    (native : Except LLArC2Error Unit) :
    PyOutcome PyInstrument × List NativeCall :=
  (match native with
   | .ok _ => .ok slf
   | .error err => .raise (PyErr.ArC2Error err),
   [NativeCall.open_channels channels])

/-- Mirrors `PyInstrument::config_channels`. -/
def PyInstrument.config_channels (slf : PyInstrument)
    (input : List (Nat × f32)) (base : Option f32)
    (native : Except LLArC2Error Unit) :
    PyOutcome PyInstrument × List NativeCall :=
  (match native with
   | .ok _ => .ok slf
   | .error err => .raise (PyErr.ArC2Error err),
   [NativeCall.config_channels input base])

/-- Mirrors `PyInstrument::config_aux_channels`: each `PyAuxDACFn` in
the tuple list is converted to the native `AuxDACFn` before the call. -/
def PyInstrument.config_aux_channels (slf : PyInstrument)
    (voltages : List (PyAuxDACFn × f32))
    (native : Except LLArC2Error Unit) :
    PyOutcome PyInstrument × List NativeCall :=
  (match native with
   | .ok _ => .ok slf
   | .error err => .raise (PyErr.ArC2Error err),
   [NativeCall.config_aux_channels
     (voltages.map (fun item => (item.1._inner, item.2)))])

/-- Mirrors `PyInstrument::config_selectors`. -/
def PyInstrument.config_selectors (slf : PyInstrument) (selectors : List Nat)
    (native : Except LLArC2Error Unit) :
    PyOutcome PyInstrument × List NativeCall :=
  (match native with
   | .ok _ => .ok slf
   | .error err => .raise (PyErr.ArC2Error err),
   [NativeCall.config_selectors selectors])

/-- Mirrors `PyInstrument::read_one`: the native result is passed
through `.unwrap()`, so a native error panics. -/
def PyInstrument.read_one (slf : PyInstrument) (low : Nat) (high : Nat) (vread : f32)
    (native : Except LLArC2Error f32) :
    PyOutcome f32 × List NativeCall :=
  (unwrap native, [NativeCall.read_one low high vread])

/-- Mirrors `PyInstrument::read_slice`: `.unwrap()` on the native
result, then conversion of the vector to a numpy array. -/
def PyInstrument.read_slice (slf : PyInstrument) (chan : Nat) (vread : f32)
    (native : Except LLArC2Error (List f32)) :
    PyOutcome (List f32) × List NativeCall :=
  (unwrap native, [NativeCall.read_slice chan vread])

/-- Mirrors `PyInstrument::read_slice_masked`: `.unwrap()` on the
native result. -/
def PyInstrument.read_slice_masked (slf : PyInstrument) (chan : Nat)
    (mask : List Nat) (vread : f32)
    (native : Except LLArC2Error (List f32)) :
    PyOutcome (List f32) × List NativeCall :=
  (unwrap native, [NativeCall.read_slice_masked chan mask vread])

/-- Mirrors `PyInstrument::read_all`: `.unwrap()` on the native
result, then `Array::from_shape_vec((32, 32), data).unwrap()`. -/
def PyInstrument.read_all (slf : PyInstrument) (vread : f32) (order : PyBiasOrder)
    (native : Except LLArC2Error (List f32)) :
    PyOutcome (Array2 f32) × List NativeCall :=
  (match native with
   | .error _ => .panicked unwrapMsg
   | .ok data =>
     match from_shape_vec 32 32 data with
     | .error _ => .panicked unwrapMsg
     | .ok array => .ok array,
   [NativeCall.read_all vread order._inner])

/-- Mirrors `PyInstrument::read_slice_open`: a `None` `ground_after`
defaults to `true` (`unwrap_or(true)`); `.unwrap()` on the native
result. -/
def PyInstrument.read_slice_open (slf : PyInstrument) (highs : List Nat)
    (ground_after : Option Bool)
    (native : Except LLArC2Error (List f32)) :
    PyOutcome (List f32) × List NativeCall :=
  (unwrap native, [NativeCall.read_slice_open highs (ground_after.getD true)])

/-- Mirrors `PyInstrument::pulse_one`. -/
def PyInstrument.pulse_one (slf : PyInstrument) (low : Nat) (high : Nat)
    (voltage : f32) (nanos : Nat)
    (native : Except LLArC2Error Unit) :
    PyOutcome PyInstrument × List NativeCall :=
  (match native with
   | .ok _ => .ok slf
   | .error err => .raise (PyErr.ArC2Error err),
   [NativeCall.pulse_one low high voltage nanos])

/-- Mirrors `PyInstrument::pulse_slice`. -/
def PyInstrument.pulse_slice (slf : PyInstrument) (chan : Nat)
    (voltage : f32) (nanos : Nat)
    (native : Except LLArC2Error Unit) :
    PyOutcome PyInstrument × List NativeCall :=
  (match native with
   | .ok _ => .ok slf
   | .error err => .raise (PyErr.ArC2Error err),
   [NativeCall.pulse_slice chan voltage nanos])

/-- Mirrors `PyInstrument::pulse_slice_masked` (native argument order
is `(chan, mask, voltage, nanos)`). -/
def PyInstrument.pulse_slice_masked (slf : PyInstrument) (chan : Nat)
    (voltage : f32) (nanos : Nat) (mask : List Nat)
    (native : Except LLArC2Error Unit) :
    PyOutcome PyInstrument × List NativeCall :=
  (match native with
   | .ok _ => .ok slf
   | .error err => .raise (PyErr.ArC2Error err),
   [NativeCall.pulse_slice_masked chan mask voltage nanos])

/-- Mirrors `PyInstrument::pulse_slice_fast_open`: raises `ValueError`
(before any native call) unless `cl_nanos` has exactly 8 elements;
otherwise forwards to the native method (the subsequent
`cl_nanos[0..8].try_into()` cannot fail on a length-8 slice). -/
def PyInstrument.pulse_slice_fast_open (slf : PyInstrument)
    (chans : List (Nat × f32 × f32)) (cl_nanos : List (Option Nat))
    (preset_state : Bool)
    (native : Except LLArC2Error Unit) :
    PyOutcome PyInstrument × List NativeCall :=
  if cl_nanos.length ≠ 8 then
    (.raise (PyErr.ValueError "Need 8 arguments for cluster timings"), [])
  else
    (match native with
     | .ok _ => .ok slf
     | .error err => .raise (PyErr.ArC2Error err),
     [NativeCall.pulse_slice_fast_open chans cl_nanos preset_state])

/-- Mirrors `PyInstrument::pulse_all`. -/
def PyInstrument.pulse_all (slf : PyInstrument) (voltage : f32) (nanos : Nat)
    (order : PyBiasOrder)
    (native : Except LLArC2Error Unit) :
    PyOutcome PyInstrument × List NativeCall :=
  (match native with
   | .ok _ => .ok slf
   | .error err => .raise (PyErr.ArC2Error err),
   [NativeCall.pulse_all voltage nanos order._inner])

/-- Mirrors `PyInstrument::pulseread_one`: `.unwrap()` on the native
result. -/
def PyInstrument.pulseread_one (slf : PyInstrument) (low : Nat) (high : Nat)
    (vpulse : f32) (nanos : Nat) (vread : f32)
    (native : Except LLArC2Error f32) :
    PyOutcome f32 × List NativeCall :=
  (unwrap native, [NativeCall.pulseread_one low high vpulse nanos vread])

/-- Mirrors `PyInstrument::pulseread_slice`: `.unwrap()` on the native
result. -/
def PyInstrument.pulseread_slice (slf : PyInstrument) (chan : Nat)
    (vpulse : f32) (nanos : Nat) (vread : f32)
    (native : Except LLArC2Error (List f32)) :
    PyOutcome (List f32) × List NativeCall :=
  (unwrap native, [NativeCall.pulseread_slice chan vpulse nanos vread])

/-- Mirrors `PyInstrument::pulseread_slice_masked`: `.unwrap()` on the
native result. -/
def PyInstrument.pulseread_slice_masked (slf : PyInstrument) (chan : Nat)
    (mask : List Nat) (vpulse : f32) (nanos : Nat) (vread : f32)
    (native : Except LLArC2Error (List f32)) :
    PyOutcome (List f32) × List NativeCall :=
  (unwrap native, [NativeCall.pulseread_slice_masked chan mask vpulse nanos vread])

/-- Mirrors `PyInstrument::pulseread_all`: `.unwrap()` on the native
result, then `Array::from_shape_vec((32, 32), data).unwrap()` exactly
as in `read_all`. -/
def PyInstrument.pulseread_all (slf : PyInstrument) (vpulse : f32) (nanos : Nat)
    (vread : f32) (order : PyBiasOrder)
    (native : Except LLArC2Error (List f32)) :
    PyOutcome (Array2 f32) × List NativeCall :=
  (match native with
   | .error _ => .panicked unwrapMsg
   | .ok data =>
     match from_shape_vec 32 32 data with
     | .error _ => .panicked unwrapMsg
     | .ok array => .ok array,
   [NativeCall.pulseread_all vpulse nanos vread order._inner])

/-- Mirrors `PyInstrument::vread_channels`: `.unwrap()` on the native
result. -/
def PyInstrument.vread_channels (slf : PyInstrument) (chans : List Nat)
    (averaging : Bool)
    (native : Except LLArC2Error (List f32)) :
    PyOutcome (List f32) × List NativeCall :=
  (unwrap native, [NativeCall.vread_channels chans averaging])

/-- Mirrors `PyInstrument::execute`: the only wrapper method that
invokes the native `execute`, returning the same handle on success. -/
def PyInstrument.execute (slf : PyInstrument)
    (native : Except LLArC2Error Unit) :
    PyOutcome PyInstrument × List NativeCall :=
  (match native with
   | .ok _ => .ok slf
   | .error err => .raise (PyErr.ArC2Error err),
   [NativeCall.execute])

/-- Mirrors `PyInstrument::busy`: infallible pass-through of the
native boolean. -/
def PyInstrument.busy (slf : PyInstrument) (native : Bool) :
    Bool × List NativeCall :=
  (native, [NativeCall.busy])

/-- Mirrors `PyInstrument::wait`: infallible pass-through. -/
def PyInstrument.wait (slf : PyInstrument) :
    Unit × List NativeCall :=
  ((), [NativeCall.wait])

/-- Mirrors `PyInstrument::set_control_mode`. -/
def PyInstrument.set_control_mode (slf : PyInstrument) (mode : PyControlMode)
    (native : Except LLArC2Error Unit) :
    PyOutcome PyInstrument × List NativeCall :=
  (match native with
   | .ok _ => .ok slf
   | .error err => .raise (PyErr.ArC2Error err),
   [NativeCall.set_control_mode mode._inner])

/-- Mirrors `PyInstrument::set_logic`: the `u32` mask is first wrapped
via `IOMask::from_vals(&[mask])`. -/
def PyInstrument.set_logic (slf : PyInstrument) (mask : Nat)
    (native : Except LLArC2Error Unit) :
    PyOutcome PyInstrument × List NativeCall :=
  (match native with
   | .ok _ => .ok slf
   | .error err => .raise (PyErr.ArC2Error err),
   [NativeCall.set_logic (IOMask.from_vals [mask])])

/-- Mirrors `PyInstrument::currents_from_address`: a native error is
converted to `ArC2Error` (no `.unwrap()` here). -/
def PyInstrument.currents_from_address (slf : PyInstrument) (addr : Nat)
    (chans : List Nat)
    (native : Except LLArC2Error (List f32)) :
    PyOutcome (List f32) × List NativeCall :=
  (match native with
   | .ok result => .ok result
   | .error err => .raise (PyErr.ArC2Error err),
   [NativeCall.currents_from_address addr chans])

/-- Mirrors `PyInstrument::word_currents_from_address`. -/
def PyInstrument.word_currents_from_address (slf : PyInstrument) (addr : Nat)
    (native : Except LLArC2Error (List f32)) :
    PyOutcome (List f32) × List NativeCall :=
  (match native with
   | .ok result => .ok result
   | .error err => .raise (PyErr.ArC2Error err),
   [NativeCall.word_currents_from_address addr])

/-- Mirrors `PyInstrument::bit_currents_from_address`. -/
def PyInstrument.bit_currents_from_address (slf : PyInstrument) (addr : Nat)
    (native : Except LLArC2Error (List f32)) :
    PyOutcome (List f32) × List NativeCall :=
  (match native with
   | .ok result => .ok result
   | .error err => .raise (PyErr.ArC2Error err),
   [NativeCall.bit_currents_from_address addr])

/-- Mirrors `PyInstrument::generate_ramp`: the `PyReadAt` and
`PyReadAfter` arguments are converted into their native values. -/
def PyInstrument.generate_ramp (slf : PyInstrument) (low : Nat) (high : Nat)
    (vstart : f32) (vstep : f32) (vstop : f32)
    (pw_nanos : Nat) (inter_nanos : Nat) (num_pulses : Nat)
    (read_at : PyReadAt) (read_after : PyReadAfter)
    (native : Except LLArC2Error Unit) :
    PyOutcome PyInstrument × List NativeCall :=
  (match native with
   | .ok _ => .ok slf
   | .error err => .raise (PyErr.ArC2Error err),
   [NativeCall.generate_ramp low high vstart vstep vstop pw_nanos inter_nanos
     num_pulses read_at._inner read_after._inner])

/-- Mirrors `PyInstrument::generate_read_train`: a `None` `lows`
argument becomes the empty vector. -/
def PyInstrument.generate_read_train (slf : PyInstrument)
    (lows : Option (List Nat)) (highs : List Nat)
    (vread : f32) (nreads : Nat) (inter_nanos : Nat) (ground : Bool)
    (native : Except LLArC2Error Unit) :
    PyOutcome PyInstrument × List NativeCall :=
  (match native with
   | .ok _ => .ok slf
   | .error err => .raise (PyErr.ArC2Error err),
   [NativeCall.generate_read_train
     (match lows with
      | some chans => chans
      | none => [])
     highs vread nreads inter_nanos ground])

/-- Mirrors `PyInstrument::generate_vread_train`. -/
def PyInstrument.generate_vread_train (slf : PyInstrument)
    (uchans : List Nat) (averaging : Bool) (npulses : Nat) (inter_nanos : Nat)
    (native : Except LLArC2Error Unit) :
    PyOutcome PyInstrument × List NativeCall :=
  (match native with
   | .ok _ => .ok slf
   | .error err => .raise (PyErr.ArC2Error err),
   [NativeCall.generate_vread_train uchans averaging npulses inter_nanos])

/-- Mirrors `PyInstrument::read_train`: returns unit (not the handle)
on success; the `u64` interpulse is widened to `u128` and the
`PyWaitFor` condition converted to native. -/
def PyInstrument.read_train (slf : PyInstrument) (low : Nat) (high : Nat)
    (vread : f32) (interpulse : Nat) (preload : Option f32)
    (condition : PyWaitFor)
    (native : Except LLArC2Error Unit) :
    PyOutcome Unit × List NativeCall :=
  (match native with
   | .ok _ => .ok ()
   | .error err => .raise (PyErr.ArC2Error err),
   [NativeCall.read_train low high vread interpulse preload condition._inner])

/-- Mirrors `PyInstrument::pick_one`: converts the mode and read-type
wrappers to native, forwards, and converts `Ok(Some(data))`,
`Ok(None)` and `Err` back. -/
def PyInstrument.pick_one (slf : PyInstrument) (mode : PyDataMode)
    (rtype : PyReadType)
    (native : Except LLArC2Error (Option (List f32))) :
    PyOutcome (Option (List f32)) × List NativeCall :=
  (match native with
   | .ok (some data) => .ok (some data)
   | .ok none => .ok none
   | .error err => .raise (PyErr.ArC2Error err),
   [NativeCall.pick_one mode._inner rtype._inner])

/-! Concrete values used to instantiate theorems with hypotheses. -/

/-- A concrete instrument handle. -/
def inst0 : PyInstrument :=
  ⟨⟨0⟩⟩

/-- A concrete native error token. -/
def e0 : LLArC2Error :=
  ⟨0⟩

/-- A concrete 8-element cluster-timing list. -/
def cl8 : List (Option Nat) :=
  List.replicate 8 none

/-- A concrete 1024-element native read-out buffer. -/
def d1024 : List f32 :=
  List.replicate 1024 0.0

/-- C4: for every native value of the six mirrored enum families
(bias order, read timing, control mode, data retrieval mode, wait
conditions, auxiliary DAC function identifiers), converting it into
its wrapper type and back yields the original native value, and
converting a wrapper value to native and back preserves the wrapped
inner value. -/
theorem enum_mirror_roundtrip :
    ((∀ x : BiasOrder, (PyBiasOrder.ofNative x).intoNative = x)
      ∧ ∀ p : PyBiasOrder, (PyBiasOrder.ofNative p.intoNative)._inner = p._inner)
  ∧ ((∀ x : ReadAfter, (PyReadAfter.ofNative x).intoNative = x)
      ∧ ∀ p : PyReadAfter, (PyReadAfter.ofNative p.intoNative)._inner = p._inner)
  ∧ ((∀ x : ControlMode, (PyControlMode.ofNative x).intoNative = x)
      ∧ ∀ p : PyControlMode, (PyControlMode.ofNative p.intoNative)._inner = p._inner)
  ∧ ((∀ x : DataMode, (PyDataMode.ofNative x).intoNative = x)
      ∧ ∀ p : PyDataMode, (PyDataMode.ofNative p.intoNative)._inner = p._inner)
  ∧ ((∀ x : WaitFor, (PyWaitFor.ofNative x).intoNative = x)
      ∧ ∀ p : PyWaitFor, (PyWaitFor.ofNative p.intoNative)._inner = p._inner)
  ∧ ((∀ x : AuxDACFn, (PyAuxDACFn.ofNative x).intoNative = x)
      ∧ ∀ p : PyAuxDACFn, (PyAuxDACFn.ofNative p.intoNative)._inner = p._inner) :=
  ⟨⟨fun _ => rfl, fun _ => rfl⟩, ⟨fun _ => rfl, fun _ => rfl⟩,
   ⟨fun _ => rfl, fun _ => rfl⟩, ⟨fun _ => rfl, fun _ => rfl⟩,
   ⟨fun _ => rfl, fun _ => rfl⟩, ⟨fun _ => rfl, fun _ => rfl⟩⟩

/-- C7: the BiasOrder wrapper exposes exactly the two constructors
`Rows` and `Cols`; `Rows` wraps the native `BiasOrder::Rows`, `Cols`
wraps the native `BiasOrder::Columns`, and every wrapper value is one
of the two. -/
theorem bias_order_two_constructors :
    PyBiasOrder.Rows.intoNative = BiasOrder.Rows
  ∧ PyBiasOrder.Cols.intoNative = BiasOrder.Columns
  ∧ ∀ p : PyBiasOrder, p = PyBiasOrder.Rows ∨ p = PyBiasOrder.Cols :=
  ⟨rfl, rfl, fun p =>
    match p with
    | ⟨BiasOrder.Rows⟩ => Or.inl rfl
    | ⟨BiasOrder.Columns⟩ => Or.inr rfl⟩

/-- C8: `from_str` of `__str__` reconstructs a `ReadAfter` wrapper
with the same inner variant; `from_str` succeeds exactly on the
strings "pulse", "ramp", "block" and "never", and raises `ValueError`
on every other string. -/
theorem read_after_str_roundtrip :
    (∀ p : PyReadAfter, PyReadAfter.from_str p.__str__ = .ok ⟨p._inner⟩)
  ∧ PyReadAfter.from_str "pulse" = .ok PyReadAfter.Pulse
  ∧ PyReadAfter.from_str "ramp" = .ok PyReadAfter.Ramp
  ∧ PyReadAfter.from_str "block" = .ok PyReadAfter.Block
  ∧ PyReadAfter.from_str "never" = .ok PyReadAfter.Never
  ∧ ∀ r : String, r ≠ "pulse" → r ≠ "ramp" → r ≠ "block" → r ≠ "never" →
      PyReadAfter.from_str r = .error (PyErr.ValueError "Unknown ReadAfter") := by
  refine ⟨?_, rfl, rfl, rfl, rfl, ?_⟩
  · intro p
    cases p with
    | mk inner => cases inner <;> rfl
  · intro r h1 h2 h3 h4
    simp [PyReadAfter.from_str, h1, h2, h3, h4]

/-- C8 witness: a string outside the four accepted ones is rejected
with a `ValueError`. -/
theorem read_after_str_roundtrip_witness :
    PyReadAfter.from_str "foo" = .error (PyErr.ValueError "Unknown ReadAfter") :=
  read_after_str_roundtrip.2.2.2.2.2 "foo"
    (by decide) (by decide) (by decide) (by decide)

/-- C9: `ReadAt.voltage` returns the stored voltage exactly for the
`Arb` variant and raises a Python exception for `Bias` and `Never`
(the only other variants). -/
theorem read_at_voltage_arb_only :
    (∀ v : f32, (PyReadAt.Arb v).voltage = .ok v)
  ∧ PyReadAt.Bias.voltage = .error (PyErr.PyException "No voltage associated")
  ∧ PyReadAt.Never.voltage = .error (PyErr.PyException "No voltage associated") :=
  ⟨fun _ => rfl, rfl, rfl⟩

/-- C10: the boolean `read_slice_open` passes to the native call is
the supplied `ground_after` value when one is given and `true` when
it is `None`. -/
theorem read_slice_open_default_ground_after :
    ∀ (slf : PyInstrument) (highs : List Nat)
      (native : Except LLArC2Error (List f32)),
      (∀ b : Bool, (PyInstrument.read_slice_open slf highs (some b) native).2
        = [NativeCall.read_slice_open highs b])
      ∧ (PyInstrument.read_slice_open slf highs none native).2
        = [NativeCall.read_slice_open highs true] :=
  fun _ _ _ => ⟨fun _ => rfl, rfl⟩

/-- C3: `pulse_slice_fast_open` raises a `ValueError` exactly when
`cl_nanos` does not have 8 elements, and in that case no native call
is issued. -/
theorem pulse_slice_fast_open_validates_cl_nanos :
    ∀ (slf : PyInstrument) (chans : List (Nat × f32 × f32))
      (cl_nanos : List (Option Nat)) (preset_state : Bool)
      (native : Except LLArC2Error Unit),
      ((∃ msg, (PyInstrument.pulse_slice_fast_open slf chans cl_nanos
          preset_state native).1 = .raise (PyErr.ValueError msg))
        ↔ cl_nanos.length ≠ 8)
      ∧ (cl_nanos.length ≠ 8 →
          (PyInstrument.pulse_slice_fast_open slf chans cl_nanos
            preset_state native).2 = []) := by
  intro slf chans cl_nanos preset_state native
  by_cases h : cl_nanos.length = 8
  · refine ⟨⟨?_, fun hne => absurd h hne⟩, fun hne => absurd h hne⟩
    rintro ⟨msg, hmsg⟩
    simp only [PyInstrument.pulse_slice_fast_open, h] at hmsg
    cases native <;> simp_all
  · refine ⟨⟨fun _ => h, fun _ => ?_⟩, fun _ => ?_⟩
    · exact ⟨"Need 8 arguments for cluster timings",
        by simp [PyInstrument.pulse_slice_fast_open, h]⟩
    · simp [PyInstrument.pulse_slice_fast_open, h]

/-- C3 witness: an empty cluster-timing list is rejected before any
native call. -/
theorem pulse_slice_fast_open_validates_cl_nanos_witness :
    (PyInstrument.pulse_slice_fast_open inst0 [] [] false (.ok ())).2 = [] :=
  (pulse_slice_fast_open_validates_cl_nanos inst0 [] [] false (.ok ())).2
    (by decide)

/-- C5: under the precondition that the native call succeeds with
1024 values, `read_all` (and identically `pulseread_all`) converts the
flat buffer into a 32×32 array holding exactly the native values in
row-major order. -/
theorem read_all_row_major_32x32 :
    ∀ (slf : PyInstrument) (vpulse : f32) (nanos : Nat) (vread : f32)
      (order : PyBiasOrder) (data : List f32),
      data.length = 1024 →
      ((PyInstrument.read_all slf vread order (.ok data)).1 = .ok ⟨32, 32, data⟩
        ∧ (PyInstrument.pulseread_all slf vpulse nanos vread order (.ok data)).1
          = .ok ⟨32, 32, data⟩)
      ∧ ∀ i j : Nat, (Array2.mk 32 32 data).get? i j = data.get? (32 * i + j) := by
  intro slf vpulse nanos vread order data h
  refine ⟨⟨?_, ?_⟩, ?_⟩
  · simp [PyInstrument.read_all, from_shape_vec, h]
  · simp [PyInstrument.pulseread_all, from_shape_vec, h]
  · intro i j
    simp [Array2.get?, Nat.mul_comm]

/-- C5 witness: the conversion evaluated on a concrete 1024-element
buffer. -/
theorem read_all_row_major_32x32_witness :
    ((PyInstrument.read_all inst0 0.0 PyBiasOrder.Rows (.ok d1024)).1
        = .ok ⟨32, 32, d1024⟩
      ∧ (PyInstrument.pulseread_all inst0 0.0 0 0.0 PyBiasOrder.Rows (.ok d1024)).1
        = .ok ⟨32, 32, d1024⟩)
    ∧ (Array2.mk 32 32 d1024).get? 1 2 = d1024.get? (32 * 1 + 2) :=
  ⟨(read_all_row_major_32x32 inst0 0.0 0 0.0 PyBiasOrder.Rows d1024
      (List.length_replicate 1024 0.0)).1,
   (read_all_row_major_32x32 inst0 0.0 0 0.0 PyBiasOrder.Rows d1024
      (List.length_replicate 1024 0.0)).2 1 2⟩

/-- C6: the wrapper's `execute` issues exactly one native `execute`
call, returns the same instrument handle on success and raises
`ArC2Error` on failure; no other forwarding method ever issues the
native `execute` call. -/
theorem execute_sole_flush_point :
    (∀ (slf : PyInstrument) (native : Except LLArC2Error Unit),
      (PyInstrument.execute slf native).2 = [NativeCall.execute])
  ∧ (∀ slf : PyInstrument, (PyInstrument.execute slf (.ok ())).1 = .ok slf)
  ∧ (∀ (slf : PyInstrument) (e : LLArC2Error),
      (PyInstrument.execute slf (.error e)).1 = .raise (PyErr.ArC2Error e))
  ∧ (∀ id fw native,
      (((PyInstrument.new id fw native).2.all fun c => !c.isExecute) = true))
  ∧ (∀ slf nanos native,
      (((PyInstrument.delay slf nanos native).2.all fun c => !c.isExecute) = true))
  ∧ (∀ slf native,
      (((PyInstrument.ground_all slf native).2.all fun c => !c.isExecute) = true))
  ∧ (∀ slf native,
      (((PyInstrument.ground_all_fast slf native).2.all fun c => !c.isExecute) = true))
  ∧ (∀ slf chans native,
      (((PyInstrument.connect_to_gnd slf chans native).2.all fun c => !c.isExecute) = true))
  ∧ (∀ slf native,
      (((PyInstrument.float_all slf native).2.all fun c => !c.isExecute) = true))
  ∧ (∀ slf channels native,
      (((PyInstrument.open_channels slf channels native).2.all fun c => !c.isExecute) = true))
  ∧ (∀ slf input base native,
      (((PyInstrument.config_channels slf input base native).2.all
        fun c => !c.isExecute) = true))
  ∧ (∀ slf voltages native,
      (((PyInstrument.config_aux_channels slf voltages native).2.all
        fun c => !c.isExecute) = true))
  ∧ (∀ slf selectors native,
      (((PyInstrument.config_selectors slf selectors native).2.all
        fun c => !c.isExecute) = true))
  ∧ (∀ slf low high vread native,
      (((PyInstrument.read_one slf low high vread native).2.all
        fun c => !c.isExecute) = true))
  ∧ (∀ slf chan vread native,
      (((PyInstrument.read_slice slf chan vread native).2.all
        fun c => !c.isExecute) = true))
  ∧ (∀ slf chan mask vread native,
      (((PyInstrument.read_slice_masked slf chan mask vread native).2.all
        fun c => !c.isExecute) = true))
  ∧ (∀ slf vread order native,
      (((PyInstrument.read_all slf vread order native).2.all
        fun c => !c.isExecute) = true))
  ∧ (∀ slf highs ground_after native,
      (((PyInstrument.read_slice_open slf highs ground_after native).2.all
        fun c => !c.isExecute) = true))
  ∧ (∀ slf low high voltage nanos native,
      (((PyInstrument.pulse_one slf low high voltage nanos native).2.all
        fun c => !c.isExecute) = true))
  ∧ (∀ slf chan voltage nanos native,
      (((PyInstrument.pulse_slice slf chan voltage nanos native).2.all
        fun c => !c.isExecute) = true))
  ∧ (∀ slf chan voltage nanos mask native,
      (((PyInstrument.pulse_slice_masked slf chan voltage nanos mask native).2.all
        fun c => !c.isExecute) = true))
  ∧ (∀ slf chans cl_nanos preset_state native,
      (((PyInstrument.pulse_slice_fast_open slf chans cl_nanos preset_state native).2.all
        fun c => !c.isExecute) = true))
  ∧ (∀ slf voltage nanos order native,
      (((PyInstrument.pulse_all slf voltage nanos order native).2.all
        fun c => !c.isExecute) = true))
  ∧ (∀ slf low high vpulse nanos vread native,
      (((PyInstrument.pulseread_one slf low high vpulse nanos vread native).2.all
        fun c => !c.isExecute) = true))
  ∧ (∀ slf chan vpulse nanos vread native,
      (((PyInstrument.pulseread_slice slf chan vpulse nanos vread native).2.all
        fun c => !c.isExecute) = true))
  ∧ (∀ slf chan mask vpulse nanos vread native,
      (((PyInstrument.pulseread_slice_masked slf chan mask vpulse nanos vread native).2.all
        fun c => !c.isExecute) = true))
  ∧ (∀ slf vpulse nanos vread order native,
      (((PyInstrument.pulseread_all slf vpulse nanos vread order native).2.all
        fun c => !c.isExecute) = true))
  ∧ (∀ slf chans averaging native,
      (((PyInstrument.vread_channels slf chans averaging native).2.all
        fun c => !c.isExecute) = true))
  ∧ (∀ slf native,
      (((PyInstrument.busy slf native).2.all fun c => !c.isExecute) = true))
  ∧ (∀ slf : PyInstrument,
      (((PyInstrument.wait slf).2.all fun c => !c.isExecute) = true))
  ∧ (∀ slf mode native,
      (((PyInstrument.set_control_mode slf mode native).2.all
        fun c => !c.isExecute) = true))
  ∧ (∀ slf mask native,
      (((PyInstrument.set_logic slf mask native).2.all fun c => !c.isExecute) = true))
  ∧ (∀ slf addr chans native,
      (((PyInstrument.currents_from_address slf addr chans native).2.all
        fun c => !c.isExecute) = true))
  ∧ (∀ slf addr native,
      (((PyInstrument.word_currents_from_address slf addr native).2.all
        fun c => !c.isExecute) = true))
  ∧ (∀ slf addr native,
      (((PyInstrument.bit_currents_from_address slf addr native).2.all
        fun c => !c.isExecute) = true))
  ∧ (∀ slf low high vstart vstep vstop pw_nanos inter_nanos num_pulses read_at
        read_after native,
      (((PyInstrument.generate_ramp slf low high vstart vstep vstop pw_nanos
          inter_nanos num_pulses read_at read_after native).2.all
        fun c => !c.isExecute) = true))
  ∧ (∀ slf lows highs vread nreads inter_nanos ground native,
      (((PyInstrument.generate_read_train slf lows highs vread nreads inter_nanos
          ground native).2.all fun c => !c.isExecute) = true))
  ∧ (∀ slf uchans averaging npulses inter_nanos native,
      (((PyInstrument.generate_vread_train slf uchans averaging npulses inter_nanos
          native).2.all fun c => !c.isExecute) = true))
  ∧ (∀ slf low high vread interpulse preload condition native,
      (((PyInstrument.read_train slf low high vread interpulse preload condition
          native).2.all fun c => !c.isExecute) = true))
  ∧ (∀ slf mode rtype native,
      (((PyInstrument.pick_one slf mode rtype native).2.all
        fun c => !c.isExecute) = true)) := by
  repeat' apply And.intro
  all_goals intros
  all_goals try rfl
  all_goals unfold PyInstrument.pulse_slice_fast_open
  all_goals split <;> rfl

/-- C2: every forwarding method of the instrument handle issues at
most one native call, and exactly the single corresponding native
call once its arguments convert successfully (for
`pulse_slice_fast_open` that means the cluster-timing list has 8
elements; every other method's conversion always succeeds); the
wrapper object carries no state beyond the wrapped native
instrument. -/
theorem forwarding_single_native_call :
    (∀ a b : PyInstrument, a._instrument = b._instrument → a = b)
  ∧ (∀ slf chans cl_nanos preset_state native, cl_nanos.length = 8 →
      (PyInstrument.pulse_slice_fast_open slf chans cl_nanos preset_state native).2
        = [NativeCall.pulse_slice_fast_open chans cl_nanos preset_state])
  ∧ (∀ slf chans cl_nanos preset_state native,
      (PyInstrument.pulse_slice_fast_open slf chans cl_nanos preset_state
        native).2.length ≤ 1)
  ∧ (∀ id fw native,
      (PyInstrument.new id fw native).2 = [NativeCall.open_with_fw id fw true])
  ∧ (∀ slf nanos native,
      (PyInstrument.delay slf nanos native).2 = [NativeCall.add_delay nanos])
  ∧ (∀ slf native,
      (PyInstrument.ground_all slf native).2 = [NativeCall.ground_all])
  ∧ (∀ slf native,
      (PyInstrument.ground_all_fast slf native).2 = [NativeCall.ground_all_fast])
  ∧ (∀ slf chans native,
      (PyInstrument.connect_to_gnd slf chans native).2
        = [NativeCall.connect_to_gnd chans])
  ∧ (∀ slf native,
      (PyInstrument.float_all slf native).2 = [NativeCall.float_all])
  ∧ (∀ slf channels native,
      (PyInstrument.open_channels slf channels native).2
        = [NativeCall.open_channels channels])
  ∧ (∀ slf input base native,
      (PyInstrument.config_channels slf input base native).2
        = [NativeCall.config_channels input base])
  ∧ (∀ slf voltages native,
      (PyInstrument.config_aux_channels slf voltages native).2
        = [NativeCall.config_aux_channels
            (voltages.map (fun item => (item.1._inner, item.2)))])
  ∧ (∀ slf selectors native,
      (PyInstrument.config_selectors slf selectors native).2
        = [NativeCall.config_selectors selectors])
  ∧ (∀ slf low high vread native,
      (PyInstrument.read_one slf low high vread native).2
        = [NativeCall.read_one low high vread])
  ∧ (∀ slf chan vread native,
      (PyInstrument.read_slice slf chan vread native).2
        = [NativeCall.read_slice chan vread])
  ∧ (∀ slf chan mask vread native,
      (PyInstrument.read_slice_masked slf chan mask vread native).2
        = [NativeCall.read_slice_masked chan mask vread])
  ∧ (∀ slf vread order native,
      (PyInstrument.read_all slf vread order native).2
        = [NativeCall.read_all vread order._inner])
  ∧ (∀ slf highs ground_after native,
      (PyInstrument.read_slice_open slf highs ground_after native).2
        = [NativeCall.read_slice_open highs (ground_after.getD true)])
  ∧ (∀ slf low high voltage nanos native,
      (PyInstrument.pulse_one slf low high voltage nanos native).2
        = [NativeCall.pulse_one low high voltage nanos])
  ∧ (∀ slf chan voltage nanos native,
      (PyInstrument.pulse_slice slf chan voltage nanos native).2
        = [NativeCall.pulse_slice chan voltage nanos])
  ∧ (∀ slf chan voltage nanos mask native,
      (PyInstrument.pulse_slice_masked slf chan voltage nanos mask native).2
        = [NativeCall.pulse_slice_masked chan mask voltage nanos])
  ∧ (∀ slf voltage nanos order native,
      (PyInstrument.pulse_all slf voltage nanos order native).2
        = [NativeCall.pulse_all voltage nanos order._inner])
  ∧ (∀ slf low high vpulse nanos vread native,
      (PyInstrument.pulseread_one slf low high vpulse nanos vread native).2
        = [NativeCall.pulseread_one low high vpulse nanos vread])
  ∧ (∀ slf chan vpulse nanos vread native,
      (PyInstrument.pulseread_slice slf chan vpulse nanos vread native).2
        = [NativeCall.pulseread_slice chan vpulse nanos vread])
  ∧ (∀ slf chan mask vpulse nanos vread native,
      (PyInstrument.pulseread_slice_masked slf chan mask vpulse nanos vread native).2
        = [NativeCall.pulseread_slice_masked chan mask vpulse nanos vread])
  ∧ (∀ slf vpulse nanos vread order native,
      (PyInstrument.pulseread_all slf vpulse nanos vread order native).2
        = [NativeCall.pulseread_all vpulse nanos vread order._inner])
  ∧ (∀ slf chans averaging native,
      (PyInstrument.vread_channels slf chans averaging native).2
        = [NativeCall.vread_channels chans averaging])
  ∧ (∀ slf native,
      (PyInstrument.execute slf native).2 = [NativeCall.execute])
  ∧ (∀ slf native,
      (PyInstrument.busy slf native).2 = [NativeCall.busy])
  ∧ (∀ slf : PyInstrument, (PyInstrument.wait slf).2 = [NativeCall.wait])
  ∧ (∀ slf mode native,
      (PyInstrument.set_control_mode slf mode native).2
        = [NativeCall.set_control_mode mode._inner])
  ∧ (∀ slf mask native,
      (PyInstrument.set_logic slf mask native).2
        = [NativeCall.set_logic (IOMask.from_vals [mask])])
  ∧ (∀ slf addr chans native,
      (PyInstrument.currents_from_address slf addr chans native).2
        = [NativeCall.currents_from_address addr chans])
  ∧ (∀ slf addr native,
      (PyInstrument.word_currents_from_address slf addr native).2
        = [NativeCall.word_currents_from_address addr])
  ∧ (∀ slf addr native,
      (PyInstrument.bit_currents_from_address slf addr native).2
        = [NativeCall.bit_currents_from_address addr])
  ∧ (∀ slf low high vstart vstep vstop pw_nanos inter_nanos num_pulses read_at
        read_after native,
      (PyInstrument.generate_ramp slf low high vstart vstep vstop pw_nanos
          inter_nanos num_pulses read_at read_after native).2
        = [NativeCall.generate_ramp low high vstart vstep vstop pw_nanos
            inter_nanos num_pulses read_at._inner read_after._inner])
  ∧ (∀ slf lows highs vread nreads inter_nanos ground native,
      (PyInstrument.generate_read_train slf lows highs vread nreads inter_nanos
          ground native).2
        = [NativeCall.generate_read_train
            (match lows with
             | some chans => chans
             | none => [])
            highs vread nreads inter_nanos ground])
  ∧ (∀ slf uchans averaging npulses inter_nanos native,
      (PyInstrument.generate_vread_train slf uchans averaging npulses inter_nanos
          native).2
        = [NativeCall.generate_vread_train uchans averaging npulses inter_nanos])
  ∧ (∀ slf low high vread interpulse preload condition native,
      (PyInstrument.read_train slf low high vread interpulse preload condition
          native).2
        = [NativeCall.read_train low high vread interpulse preload
            condition._inner])
  ∧ (∀ slf mode rtype native,
      (PyInstrument.pick_one slf mode rtype native).2
        = [NativeCall.pick_one mode._inner rtype._inner]) := by
  refine ⟨fun a b h => ?_,
    fun slf chans cl_nanos preset_state native h => ?_,
    fun slf chans cl_nanos preset_state native => ?_, ?_⟩
  · cases a
    cases b
    cases h
    rfl
  · simp [PyInstrument.pulse_slice_fast_open, h]
  · unfold PyInstrument.pulse_slice_fast_open
    split <;> simp
  · repeat' apply And.intro
    all_goals intros
    all_goals rfl

/-- C2 witness: the stateless-wrapper and validated-call conjuncts
evaluated at concrete inputs. -/
theorem forwarding_single_native_call_witness :
    inst0 = inst0
  ∧ (PyInstrument.pulse_slice_fast_open inst0 [] cl8 false (.ok ())).2
      = [NativeCall.pulse_slice_fast_open [] cl8 false] :=
  ⟨forwarding_single_native_call.1 inst0 inst0 rfl,
   forwarding_single_native_call.2.1 inst0 [] cl8 false (.ok ())
     (List.length_replicate 8 none)⟩

/-- C1 counterexample: `read_one` is a forwarding method of the
instrument handle, yet on a native error it panics (the native result
goes through `.unwrap()`); the outcome at this concrete input is a
panic, not a raised `ArC2Error` exception. -/
theorem read_one_native_error_panics :
    (PyInstrument.read_one inst0 0 0 0.0 (.error e0)).1
      = PyOutcome.panicked unwrapMsg :=
  rfl

/-- C1 (amended): every forwarding method that returns a `PyResult`
converts a native error into the `ArC2Error` exception and a native
success value back to the host representation; the value-returning
read, pulse-read and voltage-read methods (`read_one`, `read_slice`,
`read_slice_masked`, `read_all`, `read_slice_open`, `pulseread_one`,
`pulseread_slice`, `pulseread_slice_masked`, `pulseread_all`,
`vread_channels`) instead unwrap the native result: a success value is
converted back, but a native error panics rather than raising
`ArC2Error`. -/
theorem forwarding_error_marshaling :
    (∀ slf chans cl_nanos preset_state e, cl_nanos.length = 8 →
      (PyInstrument.pulse_slice_fast_open slf chans cl_nanos preset_state
        (.error e)).1 = .raise (PyErr.ArC2Error e))
  ∧ (∀ slf chans cl_nanos preset_state, cl_nanos.length = 8 →
      (PyInstrument.pulse_slice_fast_open slf chans cl_nanos preset_state
        (.ok ())).1 = .ok slf)
  ∧ (∀ slf vread order (data : List f32), data.length = 1024 →
      (PyInstrument.read_all slf vread order (.ok data)).1 = .ok ⟨32, 32, data⟩)
  ∧ (∀ slf vpulse nanos vread order (data : List f32), data.length = 1024 →
      (PyInstrument.pulseread_all slf vpulse nanos vread order (.ok data)).1
        = .ok ⟨32, 32, data⟩)
  ∧ (∀ id fw e, (PyInstrument.new id fw (.error e)).1 = .raise (PyErr.ArC2Error e))
  ∧ (∀ id fw instr, (PyInstrument.new id fw (.ok instr)).1 = .ok ⟨instr⟩)
  ∧ (∀ slf nanos e,
      (PyInstrument.delay slf nanos (.error e)).1 = .raise (PyErr.ArC2Error e))
  ∧ (∀ slf nanos, (PyInstrument.delay slf nanos (.ok ())).1 = .ok slf)
  ∧ (∀ slf e,
      (PyInstrument.ground_all slf (.error e)).1 = .raise (PyErr.ArC2Error e))
  ∧ (∀ slf : PyInstrument, (PyInstrument.ground_all slf (.ok ())).1 = .ok slf)
  ∧ (∀ slf e,
      (PyInstrument.ground_all_fast slf (.error e)).1 = .raise (PyErr.ArC2Error e))
  ∧ (∀ slf : PyInstrument, (PyInstrument.ground_all_fast slf (.ok ())).1 = .ok slf)
  ∧ (∀ slf chans e,
      (PyInstrument.connect_to_gnd slf chans (.error e)).1
        = .raise (PyErr.ArC2Error e))
  ∧ (∀ slf chans,
      (PyInstrument.connect_to_gnd slf chans (.ok ())).1 = .ok slf)
  ∧ (∀ slf e,
      (PyInstrument.float_all slf (.error e)).1 = .raise (PyErr.ArC2Error e))
  ∧ (∀ slf : PyInstrument, (PyInstrument.float_all slf (.ok ())).1 = .ok slf)
  ∧ (∀ slf channels e,
      (PyInstrument.open_channels slf channels (.error e)).1
        = .raise (PyErr.ArC2Error e))
  ∧ (∀ slf channels,
      (PyInstrument.open_channels slf channels (.ok ())).1 = .ok slf)
  ∧ (∀ slf input base e,
      (PyInstrument.config_channels slf input base (.error e)).1
        = .raise (PyErr.ArC2Error e))
  ∧ (∀ slf input base,
      (PyInstrument.config_channels slf input base (.ok ())).1 = .ok slf)
  ∧ (∀ slf voltages e,
      (PyInstrument.config_aux_channels slf voltages (.error e)).1
        = .raise (PyErr.ArC2Error e))
  ∧ (∀ slf voltages,
      (PyInstrument.config_aux_channels slf voltages (.ok ())).1 = .ok slf)
  ∧ (∀ slf selectors e,
      (PyInstrument.config_selectors slf selectors (.error e)).1
        = .raise (PyErr.ArC2Error e))
  ∧ (∀ slf selectors,
      (PyInstrument.config_selectors slf selectors (.ok ())).1 = .ok slf)
  ∧ (∀ slf low high voltage nanos e,
      (PyInstrument.pulse_one slf low high voltage nanos (.error e)).1
        = .raise (PyErr.ArC2Error e))
  ∧ (∀ slf low high voltage nanos,
      (PyInstrument.pulse_one slf low high voltage nanos (.ok ())).1 = .ok slf)
  ∧ (∀ slf chan voltage nanos e,
      (PyInstrument.pulse_slice slf chan voltage nanos (.error e)).1
        = .raise (PyErr.ArC2Error e))
  ∧ (∀ slf chan voltage nanos,
      (PyInstrument.pulse_slice slf chan voltage nanos (.ok ())).1 = .ok slf)
  ∧ (∀ slf chan voltage nanos mask e,
      (PyInstrument.pulse_slice_masked slf chan voltage nanos mask (.error e)).1
        = .raise (PyErr.ArC2Error e))
  ∧ (∀ slf chan voltage nanos mask,
      (PyInstrument.pulse_slice_masked slf chan voltage nanos mask (.ok ())).1
        = .ok slf)
  ∧ (∀ slf voltage nanos order e,
      (PyInstrument.pulse_all slf voltage nanos order (.error e)).1
        = .raise (PyErr.ArC2Error e))
  ∧ (∀ slf voltage nanos order,
      (PyInstrument.pulse_all slf voltage nanos order (.ok ())).1 = .ok slf)
  ∧ (∀ slf e, (PyInstrument.execute slf (.error e)).1 = .raise (PyErr.ArC2Error e))
  ∧ (∀ slf : PyInstrument, (PyInstrument.execute slf (.ok ())).1 = .ok slf)
  ∧ (∀ slf mode e,
      (PyInstrument.set_control_mode slf mode (.error e)).1
        = .raise (PyErr.ArC2Error e))
  ∧ (∀ slf mode,
      (PyInstrument.set_control_mode slf mode (.ok ())).1 = .ok slf)
  ∧ (∀ slf mask e,
      (PyInstrument.set_logic slf mask (.error e)).1 = .raise (PyErr.ArC2Error e))
  ∧ (∀ slf mask, (PyInstrument.set_logic slf mask (.ok ())).1 = .ok slf)
  ∧ (∀ slf addr chans e,
      (PyInstrument.currents_from_address slf addr chans (.error e)).1
        = .raise (PyErr.ArC2Error e))
  ∧ (∀ slf addr chans (result : List f32),
      (PyInstrument.currents_from_address slf addr chans (.ok result)).1
        = .ok result)
  ∧ (∀ slf addr e,
      (PyInstrument.word_currents_from_address slf addr (.error e)).1
        = .raise (PyErr.ArC2Error e))
  ∧ (∀ slf addr (result : List f32),
      (PyInstrument.word_currents_from_address slf addr (.ok result)).1
        = .ok result)
  ∧ (∀ slf addr e,
      (PyInstrument.bit_currents_from_address slf addr (.error e)).1
        = .raise (PyErr.ArC2Error e))
  ∧ (∀ slf addr (result : List f32),
      (PyInstrument.bit_currents_from_address slf addr (.ok result)).1
        = .ok result)
  ∧ (∀ slf low high vstart vstep vstop pw_nanos inter_nanos num_pulses read_at
        read_after e,
      (PyInstrument.generate_ramp slf low high vstart vstep vstop pw_nanos
        inter_nanos num_pulses read_at read_after (.error e)).1
        = .raise (PyErr.ArC2Error e))
  ∧ (∀ slf low high vstart vstep vstop pw_nanos inter_nanos num_pulses read_at
        read_after,
      (PyInstrument.generate_ramp slf low high vstart vstep vstop pw_nanos
        inter_nanos num_pulses read_at read_after (.ok ())).1 = .ok slf)
  ∧ (∀ slf lows highs vread nreads inter_nanos ground e,
      (PyInstrument.generate_read_train slf lows highs vread nreads inter_nanos
        ground (.error e)).1 = .raise (PyErr.ArC2Error e))
  ∧ (∀ slf lows highs vread nreads inter_nanos ground,
      (PyInstrument.generate_read_train slf lows highs vread nreads inter_nanos
        ground (.ok ())).1 = .ok slf)
  ∧ (∀ slf uchans averaging npulses inter_nanos e,
      (PyInstrument.generate_vread_train slf uchans averaging npulses inter_nanos
        (.error e)).1 = .raise (PyErr.ArC2Error e))
  ∧ (∀ slf uchans averaging npulses inter_nanos,
      (PyInstrument.generate_vread_train slf uchans averaging npulses inter_nanos
        (.ok ())).1 = .ok slf)
  ∧ (∀ slf low high vread interpulse preload condition e,
      (PyInstrument.read_train slf low high vread interpulse preload condition
        (.error e)).1 = .raise (PyErr.ArC2Error e))
  ∧ (∀ slf low high vread interpulse preload condition,
      (PyInstrument.read_train slf low high vread interpulse preload condition
        (.ok ())).1 = .ok ())
  ∧ (∀ slf mode rtype e,
      (PyInstrument.pick_one slf mode rtype (.error e)).1
        = .raise (PyErr.ArC2Error e))
  ∧ (∀ slf mode rtype (data : List f32),
      (PyInstrument.pick_one slf mode rtype (.ok (some data))).1 = .ok (some data))
  ∧ (∀ slf mode rtype,
      (PyInstrument.pick_one slf mode rtype (.ok none)).1 = .ok none)
  ∧ (∀ slf low high vread e,
      (PyInstrument.read_one slf low high vread (.error e)).1
        = .panicked unwrapMsg)
  ∧ (∀ slf low high vread (v : f32),
      (PyInstrument.read_one slf low high vread (.ok v)).1 = .ok v)
  ∧ (∀ slf chan vread e,
      (PyInstrument.read_slice slf chan vread (.error e)).1 = .panicked unwrapMsg)
  ∧ (∀ slf chan vread (data : List f32),
      (PyInstrument.read_slice slf chan vread (.ok data)).1 = .ok data)
  ∧ (∀ slf chan mask vread e,
      (PyInstrument.read_slice_masked slf chan mask vread (.error e)).1
        = .panicked unwrapMsg)
  ∧ (∀ slf chan mask vread (data : List f32),
      (PyInstrument.read_slice_masked slf chan mask vread (.ok data)).1 = .ok data)
  ∧ (∀ slf vread order e,
      (PyInstrument.read_all slf vread order (.error e)).1 = .panicked unwrapMsg)
  ∧ (∀ slf highs ground_after e,
      (PyInstrument.read_slice_open slf highs ground_after (.error e)).1
        = .panicked unwrapMsg)
  ∧ (∀ slf highs ground_after (data : List f32),
      (PyInstrument.read_slice_open slf highs ground_after (.ok data)).1
        = .ok data)
  ∧ (∀ slf low high vpulse nanos vread e,
      (PyInstrument.pulseread_one slf low high vpulse nanos vread (.error e)).1
        = .panicked unwrapMsg)
  ∧ (∀ slf low high vpulse nanos vread (v : f32),
      (PyInstrument.pulseread_one slf low high vpulse nanos vread (.ok v)).1
        = .ok v)
  ∧ (∀ slf chan vpulse nanos vread e,
      (PyInstrument.pulseread_slice slf chan vpulse nanos vread (.error e)).1
        = .panicked unwrapMsg)
  ∧ (∀ slf chan vpulse nanos vread (data : List f32),
      (PyInstrument.pulseread_slice slf chan vpulse nanos vread (.ok data)).1
        = .ok data)
  ∧ (∀ slf chan mask vpulse nanos vread e,
      (PyInstrument.pulseread_slice_masked slf chan mask vpulse nanos vread
        (.error e)).1 = .panicked unwrapMsg)
  ∧ (∀ slf chan mask vpulse nanos vread (data : List f32),
      (PyInstrument.pulseread_slice_masked slf chan mask vpulse nanos vread
        (.ok data)).1 = .ok data)
  ∧ (∀ slf vpulse nanos vread order e,
      (PyInstrument.pulseread_all slf vpulse nanos vread order (.error e)).1
        = .panicked unwrapMsg)
  ∧ (∀ slf chans averaging e,
      (PyInstrument.vread_channels slf chans averaging (.error e)).1
        = .panicked unwrapMsg)
  ∧ (∀ slf chans averaging (data : List f32),
      (PyInstrument.vread_channels slf chans averaging (.ok data)).1
        = .ok data) := by
  refine ⟨fun slf chans cl_nanos preset_state e h => ?_,
    fun slf chans cl_nanos preset_state h => ?_,
    fun slf vread order data h => ?_,
    fun slf vpulse nanos vread order data h => ?_, ?_⟩
  · simp [PyInstrument.pulse_slice_fast_open, h]
  · simp [PyInstrument.pulse_slice_fast_open, h]
  · simp [PyInstrument.read_all, from_shape_vec, h]
  · simp [PyInstrument.pulseread_all, from_shape_vec, h]
  · repeat' apply And.intro
    all_goals intros
    all_goals rfl

/-- C1 witness: the hypothesis-bearing conjuncts of the amended
marshaling theorem evaluated at concrete inputs. -/
theorem forwarding_error_marshaling_witness :
    (PyInstrument.pulse_slice_fast_open inst0 [] cl8 false (.error e0)).1
      = .raise (PyErr.ArC2Error e0)
  ∧ (PyInstrument.pulse_slice_fast_open inst0 [] cl8 false (.ok ())).1 = .ok inst0
  ∧ (PyInstrument.read_all inst0 0.0 PyBiasOrder.Rows (.ok d1024)).1
      = .ok ⟨32, 32, d1024⟩
  ∧ (PyInstrument.pulseread_all inst0 0.0 0 0.0 PyBiasOrder.Rows (.ok d1024)).1
      = .ok ⟨32, 32, d1024⟩ :=
  ⟨forwarding_error_marshaling.1 inst0 [] cl8 false e0
     (List.length_replicate 8 none),
   forwarding_error_marshaling.2.1 inst0 [] cl8 false
     (List.length_replicate 8 none),
   forwarding_error_marshaling.2.2.1 inst0 0.0 PyBiasOrder.Rows d1024
     (List.length_replicate 1024 0.0),
   forwarding_error_marshaling.2.2.2.1 inst0 0.0 0 0.0 PyBiasOrder.Rows d1024
     (List.length_replicate 1024 0.0)⟩

end Pyarc2
